import Mathlib

/-!
Verification of the Pi-hole API client (`src/api/pihole.py`) against its
specification.

The client is embedded shallowly:

* The `requests` library boundary is a `Transport` function from the request
  the client builds (url, query params, headers) to either an HTTP response
  or a network-level failure.  A response is abstracted by its status code
  together with the result of `response.json()`: `some v` when the body
  parses as a JSON value `v`, `none` when `response.json()` raises
  `JSONDecodeError`.
* Python exceptions become an `Except PyError` result; the three error kinds
  the client can surface are `HTTPError`, `ValueError` (the spec's
  `InvalidResponseError`) and transport errors (`ConnectionError`/`Timeout`,
  the spec's `TransportError`).
* `urllib.parse.urlparse` is modelled after CPython's `urlsplit` restricted
  to the `scheme` and `netloc` components, the only ones `validate_api_url`
  reads.  CPython's `urlsplit` can raise `ValueError` (`"Invalid IPv6 URL"`)
  on a netloc with mismatched square brackets, which the model keeps.
-/

/-- A JSON value, the result type of `response.json()`. -/
inductive Json where
  | null
  | bool (b : Bool)
  | num (n : Int)
  | str (s : String)
  | arr (elems : List Json)
  | obj (fields : List (String × Json))

/-- A query-parameter value: the client sends ints (`disable_time`) and
strings (`api_key`). -/
inductive ParamValue where
  | int (n : Int)
  | str (s : String)
deriving DecidableEq

/-- The request `requests.get(url, params=params, headers=headers)` is given:
the already-concatenated URL string, the optional query-parameter dict and the
optional header dict (`none` models Python's `None` default). -/
structure Request where
  url : String
  params : Option (List (String × ParamValue))
  headers : Option (List (String × String))

/-- An HTTP response as the client observes it: the status code, and the
outcome of `response.json()` — `some v` if the body parses as JSON,
`none` if `response.json()` raises `JSONDecodeError`. -/
structure Response where
  status_code : Nat
  jsonBody : Option Json

/-- What `requests.get` can do: deliver a response, or raise a network-level
error (`ConnectionError`, `Timeout`, ...). -/
inductive HttpResult where
  | resp (response : Response)
  | netError (msg : String)

/-- The environment's behavior for `requests.get`. -/
abbrev Transport := Request → HttpResult

/-- The Python exceptions the client surfaces.  `valueError` is raised by
`make_api_call` with message `"Invalid JSON response."`; the spec names this
error kind `InvalidResponseError`.  `transportError` covers the
network-level `requests` exceptions the spec calls `TransportError`. -/
inductive PyError where
  | httpError (msg : String)
  | valueError (msg : String)
  | transportError (msg : String)
deriving DecidableEq

/-- The `API` class: `__init__` stores the two constructor arguments
verbatim, and the class has no other attribute. -/
structure API where
  api_url : String
  api_key : String

/-- `requests.Response.raise_for_status`: raises `HTTPError` exactly when
the status code is a 4xx client error or 5xx server error. -/
def Response.raise_for_status (response : Response) : Except PyError Unit :=
  if 400 ≤ response.status_code ∧ response.status_code < 600 then
    Except.error (PyError.httpError
      ("Error for status " ++ toString response.status_code))
  else
    Except.ok ()

/-- `API.make_api_call`: builds `url = f"{self.api_url}{endpoint}"`, issues
`requests.get(url, params=params, headers=headers)` and then:
status 200 → `raise_for_status()` then return `response.json()`, converting a
`JSONDecodeError` into `ValueError("Invalid JSON response.")`;
other status → raise `HTTPError` with the status code in the message.
A network-level error from `requests.get` propagates. -/
def API.make_api_call (self : API) (transport : Transport) (endpoint : String)
    (params : Option (List (String × ParamValue)))
    (headers : Option (List (String × String))) : Except PyError Json :=
  let url := self.api_url ++ endpoint
  match transport ⟨url, params, headers⟩ with
  | HttpResult.netError msg => Except.error (PyError.transportError msg)
  | HttpResult.resp response =>
    if response.status_code == 200 then
      match response.raise_for_status with
      | Except.error e => Except.error e
      | Except.ok () =>
        match response.jsonBody with
        | some j => Except.ok j
        | none => Except.error (PyError.valueError "Invalid JSON response.")
    else
      Except.error (PyError.httpError
        ("API call failed with status code " ++ toString response.status_code ++ "."))

/-- `API.disable_adblocker`: calls `make_api_call("/admin/api.php", params)`
with `params = {"disable": disable_time, "auth": self.api_key}` and no
headers; returns `True` on success, `False` if an `HTTPError` was raised;
every other exception propagates. -/
def API.disable_adblocker (self : API) (transport : Transport)
    (disable_time : Int) : Except PyError Bool :=
  let params : List (String × ParamValue) :=
    [("disable", ParamValue.int disable_time),
     ("auth", ParamValue.str self.api_key)]
  match self.make_api_call transport "/admin/api.php" (some params) none with
  | Except.ok _ => Except.ok true
  | Except.error (PyError.httpError _) => Except.ok false
  | Except.error e => Except.error e

/-- The characters CPython's `urlsplit` accepts in a URL scheme:
`scheme_chars = ascii_letters + digits + "+-."`. -/
def isSchemeChar (c : Char) : Bool :=
  c.isAlpha || c.isDigit || c == '+' || c == '-' || c == '.'

/-- The scheme-splitting step of CPython's `urlsplit`: if the URL has a `:`
at a positive index, its first character is an ASCII letter and every
character before the `:` is a scheme character, the lowercased part before
the `:` is the scheme and the rest follows it; otherwise the scheme is empty
and the URL is left whole. -/
def splitScheme (url : List Char) : List Char × List Char :=
  match url.findIdx? (fun c => c == ':') with
  | none => ([], url)
  | some i =>
    match url with
    | [] => ([], url)
    | c0 :: _ =>
      if 0 < i ∧ (c0.toNat < 128 ∧ c0.isAlpha) ∧ (url.take i).all isSchemeChar then
        ((url.take i).map Char.toLower, url.drop (i + 1))
      else
        ([], url)

/-- The `scheme`/`netloc` components computed by CPython
`urllib.parse.urlsplit` (which `urlparse` delegates to); `validate_api_url`
reads no other component. -/
structure SplitResult where
  scheme : String
  netloc : String

/-- Models CPython `urllib.parse.urlparse` restricted to the `scheme` and
`netloc` components: left-strip C0-control/space characters, remove tab, CR
and LF, split off the scheme, and if what remains starts with `//` take the
netloc up to the next `/`, `?` or `#` — raising
`ValueError("Invalid IPv6 URL")` when exactly one of `[` and `]` occurs in
the netloc.  The model is *incomplete on the error side*: real CPython
raises further `ValueError`s it does not enumerate — `_check_bracketed_host`
rejects a bracketed host that is not an IPv6/IPvFuture address (e.g.
`"http://[foo]"`), and `_checknetloc` rejects netlocs with characters whose
NFKC normalization introduces a delimiter (e.g. `"http://a℀"`) — so no
theorem below asserts that `Except.ok` here means the real parser cannot
raise; theorems about parse errors are stated conditionally on `urlparse`'s
outcome and remain true under any faithful extension of its error cases. -/
def urlparse (urlStr : String) : Except String SplitResult :=
  let url0 := urlStr.toList
  let url1 := url0.dropWhile (fun c => c.toNat ≤ 32)
  let url2 := url1.filter (fun c => ¬(c == '\t' || c == '\r' || c == '\n'))
  let p := splitScheme url2
  match p.2 with
  | '/' :: '/' :: rest =>
    let netloc := rest.takeWhile (fun c => ¬(c == '/' || c == '?' || c == '#'))
    if (netloc.contains '[' != netloc.contains ']') = true then
      Except.error "Invalid IPv6 URL"
    else
      Except.ok ⟨p.1.asString, netloc.asString⟩
  | _ => Except.ok ⟨p.1.asString, ""⟩

/-- `API.validate_api_url`: `urlparse` the string and return
`all([parsed_url.scheme, parsed_url.netloc])`, i.e. whether both the scheme
and the netloc are non-empty strings.  A `ValueError` raised by `urlparse`
propagates (there is no handler in the Python function). -/
def API.validate_api_url (api_url : String) : Except String Bool :=
  match urlparse api_url with
  | Except.error e => Except.error e
  | Except.ok parsed_url =>
    Except.ok (!(parsed_url.scheme == "") && !(parsed_url.netloc == ""))

/-- `API.validate_api_key`: true iff the key is non-empty. -/
def API.validate_api_key (api_key : String) : Bool :=
  decide (0 < api_key.length)

/-- The exact request `disable_adblocker` hands to the transport. -/
def disable_request (api : API) (disable_time : Int) : Request :=
  ⟨api.api_url ++ "/admin/api.php",
   some [("disable", ParamValue.int disable_time),
         ("auth", ParamValue.str api.api_key)],
   none⟩

/-- State-passing form of `disable_adblocker`: the Python method body reads
`self.api_key` and assigns no attribute of `self`, so the object state it
returns is the structure rebuilt from the same two fields. -/
def API.disable_adblocker_step (self : API) (transport : Transport)
    (disable_time : Int) : (Except PyError Bool) × API :=
  (self.disable_adblocker transport disable_time,
   ⟨self.api_url, self.api_key⟩)

/-- Two sequential `disable_adblocker` calls, threading the object state
from the first call into the second. -/
def API.disable_adblocker_twice (self : API) (transport : Transport)
    (disable_time : Int) :
    (Except PyError Bool) × (Except PyError Bool) × API :=
  let p1 := self.disable_adblocker_step transport disable_time
  let p2 := p1.2.disable_adblocker_step transport disable_time
  (p1.1, p2.1, p2.2)

/-- Helper: once the transport delivers a response, `make_api_call` is a
function of the status code and the JSON-parse outcome alone, and in the
200 branch `raise_for_status` contributes nothing. -/
theorem make_api_call_resp (api : API) (t : Transport) (endpoint : String)
    (params : Option (List (String × ParamValue)))
    (headers : Option (List (String × String))) (r : Response)
    (hresp : t ⟨api.api_url ++ endpoint, params, headers⟩ = HttpResult.resp r) :
    api.make_api_call t endpoint params headers =
      if r.status_code = 200 then
        (match r.jsonBody with
         | some j => Except.ok j
         | none => Except.error (PyError.valueError "Invalid JSON response."))
      else
        Except.error (PyError.httpError
          ("API call failed with status code " ++ toString r.status_code ++ ".")) := by
  simp only [API.make_api_call, hresp]
  by_cases h200 : r.status_code = 200
  · simp [h200, Response.raise_for_status]
  · simp [h200]

/-- Helper: `disable_adblocker` unfolded to the `try/except` on the
underlying `make_api_call`. -/
theorem disable_adblocker_eq (api : API) (t : Transport) (dt : Int) :
    api.disable_adblocker t dt =
      match api.make_api_call t "/admin/api.php"
          (some [("disable", ParamValue.int dt),
                 ("auth", ParamValue.str api.api_key)]) none with
      | Except.ok _ => Except.ok true
      | Except.error (PyError.httpError _) => Except.ok false
      | Except.error e => Except.error e := rfl

/-- Claim C1: for every client and every disable_time, `disable_adblocker`
returns true when the underlying call completes without error, returns false
exactly when the call fails with `HTTPError`, and any `InvalidResponseError`
(`ValueError`) or `TransportError` raised by the call is not caught and
propagates to the caller of `disable_adblocker`. -/
theorem disable_adblocker_error_contract (api : API) (t : Transport) (dt : Int) :
    (∀ j, api.make_api_call t "/admin/api.php"
        (some [("disable", ParamValue.int dt),
               ("auth", ParamValue.str api.api_key)]) none = Except.ok j →
      api.disable_adblocker t dt = Except.ok true) ∧
    (api.disable_adblocker t dt = Except.ok false ↔
      ∃ msg, api.make_api_call t "/admin/api.php"
        (some [("disable", ParamValue.int dt),
               ("auth", ParamValue.str api.api_key)]) none =
        Except.error (PyError.httpError msg)) ∧
    (∀ e, api.make_api_call t "/admin/api.php"
        (some [("disable", ParamValue.int dt),
               ("auth", ParamValue.str api.api_key)]) none = Except.error e →
      (∀ msg, e ≠ PyError.httpError msg) →
      api.disable_adblocker t dt = Except.error e) := by
  rw [disable_adblocker_eq]
  cases h : api.make_api_call t "/admin/api.php"
      (some [("disable", ParamValue.int dt),
             ("auth", ParamValue.str api.api_key)]) none with
  | ok j => simp
  | error e => cases e <;> simp

/-- Claim C2: for every endpoint, params and headers, if the HTTP GET issued
by `make_api_call` yields status 200 and the response body parses as JSON,
then `make_api_call` returns the parsed JSON value of the body. -/
theorem make_api_call_success (api : API) (t : Transport) (endpoint : String)
    (params : Option (List (String × ParamValue)))
    (headers : Option (List (String × String)))
    (r : Response) (j : Json)
    (hresp : t ⟨api.api_url ++ endpoint, params, headers⟩ = HttpResult.resp r)
    (hstatus : r.status_code = 200) (hjson : r.jsonBody = some j) :
    api.make_api_call t endpoint params headers = Except.ok j := by
  rw [make_api_call_resp api t endpoint params headers r hresp]
  simp [hstatus, hjson]

/-- Claim C3: for every endpoint, params and headers, if the HTTP GET issued
by `make_api_call` yields a status other than 200, `make_api_call` fails with
an `HTTPError` carrying that status code, and no JSON parsing of the body is
attempted: the result is the same whatever the body's JSON-parse outcome. -/
theorem make_api_call_non200 (api : API) (t : Transport) (endpoint : String)
    (params : Option (List (String × ParamValue)))
    (headers : Option (List (String × String))) (r : Response)
    (hresp : t ⟨api.api_url ++ endpoint, params, headers⟩ = HttpResult.resp r)
    (hstatus : r.status_code ≠ 200) :
    api.make_api_call t endpoint params headers =
      Except.error (PyError.httpError
        ("API call failed with status code " ++ toString r.status_code ++ ".")) ∧
    ∀ jb : Option Json,
      api.make_api_call (fun _ => HttpResult.resp ⟨r.status_code, jb⟩)
          endpoint params headers =
        api.make_api_call t endpoint params headers := by
  have h1 : api.make_api_call t endpoint params headers =
      Except.error (PyError.httpError
        ("API call failed with status code " ++ toString r.status_code ++ ".")) := by
    rw [make_api_call_resp api t endpoint params headers r hresp]
    simp [hstatus]
  refine ⟨h1, fun jb => ?_⟩
  rw [h1, make_api_call_resp api (fun _ => HttpResult.resp ⟨r.status_code, jb⟩)
        endpoint params headers ⟨r.status_code, jb⟩ rfl]
  simp [hstatus]

/-- Claim C4: for every endpoint, params and headers, if the HTTP GET issued
by `make_api_call` yields status 200 but the body is not valid JSON,
`make_api_call` fails with the `ValueError` the spec calls
`InvalidResponseError`, carrying the message `"Invalid JSON response."`, and
not with an `HTTPError`. -/
theorem make_api_call_invalid_json (api : API) (t : Transport) (endpoint : String)
    (params : Option (List (String × ParamValue)))
    (headers : Option (List (String × String))) (r : Response)
    (hresp : t ⟨api.api_url ++ endpoint, params, headers⟩ = HttpResult.resp r)
    (hstatus : r.status_code = 200) (hjson : r.jsonBody = none) :
    api.make_api_call t endpoint params headers =
      Except.error (PyError.valueError "Invalid JSON response.") ∧
    ∀ msg, api.make_api_call t endpoint params headers ≠
      Except.error (PyError.httpError msg) := by
  have h1 : api.make_api_call t endpoint params headers =
      Except.error (PyError.valueError "Invalid JSON response.") := by
    rw [make_api_call_resp api t endpoint params headers r hresp]
    simp [hstatus, hjson]
  exact ⟨h1, fun msg h => by rw [h1] at h; exact absurd h (by simp)⟩

/-- Claim C7: for every base_url and endpoint, `make_api_call` issues its
GET to the exact string concatenation `base_url ++ endpoint` with the given
params as query parameters and nothing else: its result depends on the
transport only through the transport's answer at that one request.  The
witness exercises this with a base URL ending in `/`, showing the duplicate
slash is not normalized away. -/
theorem make_api_call_request_exact (api : API) (endpoint : String)
    (params : Option (List (String × ParamValue)))
    (headers : Option (List (String × String))) (t t' : Transport)
    (h : t ⟨api.api_url ++ endpoint, params, headers⟩ =
         t' ⟨api.api_url ++ endpoint, params, headers⟩) :
    api.make_api_call t endpoint params headers =
      api.make_api_call t' endpoint params headers := by
  simp only [API.make_api_call, h]

/-- Claim C8: for every disable_time (including 0 and negative values),
`disable_adblocker` invokes the generic call on endpoint `"/admin/api.php"`
with exactly the parameters `disable = disable_time` and `auth = api_key`,
passing `disable_time` through unmodified: its result depends on the
transport only through the answer at `disable_request`, whose params field
is exactly that two-entry dict. -/
theorem disable_adblocker_invocation (api : API) (dt : Int) (t t' : Transport)
    (h : t (disable_request api dt) = t' (disable_request api dt)) :
    api.disable_adblocker t dt = api.disable_adblocker t' dt ∧
    (disable_request api dt).params =
      some [("disable", ParamValue.int dt),
            ("auth", ParamValue.str api.api_key)] ∧
    (disable_request api dt).url = api.api_url ++ "/admin/api.php" := by
  refine ⟨?_, rfl, rfl⟩
  simp only [disable_request] at h
  simp only [API.disable_adblocker, API.make_api_call, h]

/-- Claim C9: the stored base URL and API key are exactly the strings given
at construction, and a `disable_adblocker` call leaves the client state
unchanged: threading the object state through two sequential calls gives the
same two results as two independent calls, with the state still equal to the
freshly constructed client. -/
theorem api_state_frame (u k : String) (t : Transport) (dt : Int) :
    (API.mk u k).api_url = u ∧ (API.mk u k).api_key = k ∧
    (API.mk u k).disable_adblocker_twice t dt =
      ((API.mk u k).disable_adblocker t dt,
       (API.mk u k).disable_adblocker t dt,
       API.mk u k) := ⟨rfl, rfl, rfl⟩

/-- Claim C10: inside `make_api_call`'s 200 branch the `raise_for_status`
check can never raise — with `status_code = 200` it returns `ok` — so when
the transport delivers a 200 response the only possible failure of
`make_api_call` is the JSON-decode `ValueError`. -/
theorem raise_for_status_unreachable_at_200 (r : Response)
    (h : r.status_code = 200) :
    r.raise_for_status = Except.ok () ∧
    ∀ (api : API) (t : Transport) (endpoint : String)
      (params : Option (List (String × ParamValue)))
      (headers : Option (List (String × String))),
      t ⟨api.api_url ++ endpoint, params, headers⟩ = HttpResult.resp r →
      (∃ j, api.make_api_call t endpoint params headers = Except.ok j) ∨
      api.make_api_call t endpoint params headers =
        Except.error (PyError.valueError "Invalid JSON response.") := by
  refine ⟨by simp [Response.raise_for_status, h], ?_⟩
  intro api t endpoint params headers hresp
  rw [make_api_call_resp api t endpoint params headers r hresp]
  cases hj : r.jsonBody with
  | some j => exact Or.inl ⟨j, by simp [h]⟩
  | none => exact Or.inr (by simp [h])

/-- Claim C5, counterexample: `validate_api_url` does NOT return a boolean
on every input — on `"http://["` the `urlparse` inside it raises
`ValueError("Invalid IPv6 URL")` (CPython `urlsplit` rejects a netloc
containing `[` without `]`), and the exception propagates out of
`validate_api_url` instead of yielding `false`. -/
theorem validate_api_url_raises_on_bad_ipv6 :
    API.validate_api_url "http://[" = Except.error "Invalid IPv6 URL" := rfl

/-- Claim C5, amended: for every input string, `validate_api_url` returns a
boolean whenever `urlparse` completes without raising — an input that merely
lacks a scheme or a host yields `false` rather than an error — and whenever
`urlparse` raises a `ValueError` (the modelled mismatched-bracket
`"Invalid IPv6 URL"`; real CPython raises further `ValueError`s, from its
bracketed-host and NFKC netloc validation, that the model does not
enumerate) the exception propagates uncaught to `validate_api_url`'s
caller, because the Python function has no handler around `urlparse`.  The
statement is conditional on `urlparse`'s outcome, so it holds under any
faithful extension of the parser's error cases. -/
theorem validate_api_url_parse_outcome (s : String) :
    (∀ parts, urlparse s = Except.ok parts →
      ∃ b : Bool, API.validate_api_url s = Except.ok b) ∧
    (∀ parts, urlparse s = Except.ok parts →
      parts.scheme = "" ∨ parts.netloc = "" →
      API.validate_api_url s = Except.ok false) ∧
    (∀ e, urlparse s = Except.error e →
      API.validate_api_url s = Except.error e) := by
  refine ⟨fun parts h => ?_, fun parts h hmiss => ?_, fun e h => ?_⟩
  · exact ⟨!(parts.scheme == "") && !(parts.netloc == ""),
      by simp [API.validate_api_url, h]⟩
  · rcases hmiss with hs | hn
    · simp [API.validate_api_url, h, hs]
    · simp [API.validate_api_url, h, hn]
  · simp [API.validate_api_url, h]

/-- Witness for the amended C5: a scheme-less input parses and yields
`false`, and a mismatched-bracket input propagates the parse error. -/
theorem validate_api_url_parse_outcome_witness :
    API.validate_api_url "pihole.local" = Except.ok false ∧
    API.validate_api_url "http://]" = Except.error "Invalid IPv6 URL" :=
  ⟨(validate_api_url_parse_outcome "pihole.local").2.1 ⟨"", ""⟩ rfl (Or.inl rfl),
   (validate_api_url_parse_outcome "http://]").2.2 "Invalid IPv6 URL" rfl⟩

/-- Claim C6: for every input string, `validate_api_url` returns true if and
only if URL-parsing the string yields both a non-empty scheme and a non-empty
network location; in particular it returns true for `"http://pihole.local"`
and `"https://10.0.0.5:8080"` and false for `""`, `"pihole.local"` and
`"http://"`. -/
theorem validate_api_url_spec (s : String) :
    (API.validate_api_url s = Except.ok true ↔
      ∃ parts, urlparse s = Except.ok parts ∧
        parts.scheme ≠ "" ∧ parts.netloc ≠ "") ∧
    API.validate_api_url "http://pihole.local" = Except.ok true ∧
    API.validate_api_url "https://10.0.0.5:8080" = Except.ok true ∧
    API.validate_api_url "" = Except.ok false ∧
    API.validate_api_url "pihole.local" = Except.ok false ∧
    API.validate_api_url "http://" = Except.ok false := by
  refine ⟨?_, rfl, rfl, rfl, rfl, rfl⟩
  unfold API.validate_api_url
  cases h : urlparse s with
  | error e => simp [h]
  | ok parts => simp [h]

/-- Witness for C1 -/
theorem disable_adblocker_error_contract_witness :
    (API.mk "http://pihole.local" "k").disable_adblocker
      (fun _ => HttpResult.resp ⟨403, none⟩) 30 = Except.ok false :=
  (disable_adblocker_error_contract (API.mk "http://pihole.local" "k")
    (fun _ => HttpResult.resp ⟨403, none⟩) 30).2.1.mpr
    ⟨"API call failed with status code 403.", rfl⟩

/-- Witness for C2 -/
theorem make_api_call_success_witness :
    (API.mk "http://pihole.local" "k").make_api_call
      (fun _ => HttpResult.resp ⟨200, some (Json.obj [("status", Json.str "disabled")])⟩)
      "/admin/api.php" none none =
      Except.ok (Json.obj [("status", Json.str "disabled")]) :=
  make_api_call_success (API.mk "http://pihole.local" "k")
    (fun _ => HttpResult.resp ⟨200, some (Json.obj [("status", Json.str "disabled")])⟩)
    "/admin/api.php" none none
    ⟨200, some (Json.obj [("status", Json.str "disabled")])⟩
    (Json.obj [("status", Json.str "disabled")]) rfl rfl rfl

/-- Witness for C3 -/
theorem make_api_call_non200_witness :
    (API.mk "http://pihole.local" "k").make_api_call
        (fun _ => HttpResult.resp ⟨403, none⟩) "/admin/api.php" none none =
      Except.error (PyError.httpError "API call failed with status code 403.") :=
  (make_api_call_non200 (API.mk "http://pihole.local" "k")
    (fun _ => HttpResult.resp ⟨403, none⟩) "/admin/api.php" none none
    ⟨403, none⟩ rfl (by decide)).1

/-- Witness for C4 -/
theorem make_api_call_invalid_json_witness :
    (API.mk "http://pihole.local" "k").make_api_call
        (fun _ => HttpResult.resp ⟨200, none⟩) "/admin/api.php" none none =
      Except.error (PyError.valueError "Invalid JSON response.") :=
  (make_api_call_invalid_json (API.mk "http://pihole.local" "k")
    (fun _ => HttpResult.resp ⟨200, none⟩) "/admin/api.php" none none
    ⟨200, none⟩ rfl rfl rfl).1

/-- Witness for C7 -/
theorem make_api_call_request_exact_witness :
    (API.mk "http://pihole.local/" "k").make_api_call
        (fun req => if req.url == "http://pihole.local//admin/api.php"
          then HttpResult.resp ⟨200, some Json.null⟩
          else HttpResult.netError "wrong url")
        "/admin/api.php" (some [("auth", ParamValue.str "x")]) none =
      (API.mk "http://pihole.local/" "k").make_api_call
        (fun req => if req.url == "http://pihole.local//admin/api.php"
          then HttpResult.resp ⟨200, some Json.null⟩
          else HttpResult.resp ⟨500, none⟩)
        "/admin/api.php" (some [("auth", ParamValue.str "x")]) none :=
  make_api_call_request_exact (API.mk "http://pihole.local/" "k")
    "/admin/api.php" (some [("auth", ParamValue.str "x")]) none
    (fun req => if req.url == "http://pihole.local//admin/api.php"
      then HttpResult.resp ⟨200, some Json.null⟩
      else HttpResult.netError "wrong url")
    (fun req => if req.url == "http://pihole.local//admin/api.php"
      then HttpResult.resp ⟨200, some Json.null⟩
      else HttpResult.resp ⟨500, none⟩) rfl

/-- Witness for C8 -/
theorem disable_adblocker_invocation_witness :
    (API.mk "http://pihole.local" "k").disable_adblocker
        (fun req => if req.url == "http://pihole.local/admin/api.php"
          then HttpResult.resp ⟨200, some Json.null⟩
          else HttpResult.netError "wrong url") (-5) =
      (API.mk "http://pihole.local" "k").disable_adblocker
        (fun req => if req.url == "http://pihole.local/admin/api.php"
          then HttpResult.resp ⟨200, some Json.null⟩
          else HttpResult.resp ⟨500, none⟩) (-5) :=
  (disable_adblocker_invocation (API.mk "http://pihole.local" "k") (-5)
    (fun req => if req.url == "http://pihole.local/admin/api.php"
      then HttpResult.resp ⟨200, some Json.null⟩
      else HttpResult.netError "wrong url")
    (fun req => if req.url == "http://pihole.local/admin/api.php"
      then HttpResult.resp ⟨200, some Json.null⟩
      else HttpResult.resp ⟨500, none⟩) rfl).1

/-- Witness for C10 -/
theorem raise_for_status_unreachable_at_200_witness :
    (⟨200, none⟩ : Response).raise_for_status = Except.ok () :=
  (raise_for_status_unreachable_at_200 ⟨200, none⟩ rfl).1
